import Mathlib

/-!
Verification development for the Marzban Telegram bot (`bot.py`).

The source is a single Python file: Telegram handlers around a REST client
for a VPN panel (Marzban), flat JSON stores keyed by Telegram id, and a
YooKassa payment webhook.  This file shallowly embeds the data model and the
operations the specification talks about:

* JSON values are the mutual inductive `JsonV`/`JsonArr`/`JsonObj`; Python
  truthiness is `pyFalsy`; dict keys must be hashable, which `PyKey`
  captures (arrays/objects as keys raise `TypeError`, modelled as an
  `Except.error`).
* The flat JSON stores (`payment_requests.json`, `user_map.json`,
  `trial_used.json`, `plan_selected.json`) are association lists with
  Python-dict update semantics (`aget`/`aset`/`amod`).
* Instants are integer epoch seconds; `timedelta(days=d)` is `d * 86400`.
  The panel's `expire` field is `Option Int` (`none` = unlimited); the
  ISO-format/parse pair of the source (`format_expire_for_api`,
  `parse_expire_from_user_json`) is a bijection on whole-second instants
  and is modelled as the identity.  Calendar dates are converted with the
  standard civil-from-days algorithm so concrete dates in the spec can be
  evaluated.
* The panel is modelled as a healthy Marzban instance: an association list
  from username to account; `GET /api/user/{u}` answers 200 when the user
  exists and 404 otherwise, `PUT` updates the supplied fields, `POST` of an
  existing username answers 409.  URL percent-encoding of usernames is
  injective, so accounts are keyed by the raw username.
-/

mutual

/-- JSON values (Python objects after `json.loads` / `request.json()`).
`null` doubles as Python `None`. -/
inductive JsonV : Type where
  | null : JsonV
  | bool : Bool → JsonV
  | num : Int → JsonV
  | str : String → JsonV
  | arr : JsonArr → JsonV
  | obj : JsonObj → JsonV

/-- JSON arrays (spine of a Python list). -/
inductive JsonArr : Type where
  | nil : JsonArr
  | cons : JsonV → JsonArr → JsonArr

/-- JSON objects (spine of a Python dict, insertion ordered). -/
inductive JsonObj : Type where
  | nil : JsonObj
  | cons : String → JsonV → JsonObj → JsonObj

end

/-- Python truthiness of a JSON value: `None`, `False`, `0`, `""`, `[]`,
`{}` are falsy, everything else truthy. -/
def pyFalsy : JsonV → Bool
  | .null => true
  | .bool b => !b
  | .num n => n = 0
  | .str s => s = ""
  | .arr .nil => true
  | .arr (.cons _ _) => false
  | .obj .nil => true
  | .obj (.cons _ _ _) => false

/-- `o.get(k)` on a JSON object: first binding wins, `None` when absent. -/
def objGet : JsonObj → String → Option JsonV
  | .nil, _ => none
  | .cons k v t, k' => if k = k' then some v else objGet t k'

/-- Hashable Python values usable as dict keys.  Lists and dicts are
unhashable: using one as a key raises `TypeError`. -/
inductive PyKey : Type where
  | null : PyKey
  | bool : Bool → PyKey
  | num : Int → PyKey
  | str : String → PyKey
deriving DecidableEq

/-- Conversion of a JSON value to a dict key; `none` models the
`TypeError` raised for unhashable lists/objects. -/
def jsonToKey : JsonV → Option PyKey
  | .null => some .null
  | .bool b => some (.bool b)
  | .num n => some (.num n)
  | .str s => some (.str s)
  | .arr _ => none
  | .obj _ => none

/-- Python `v is None`. -/
def jIsNull : JsonV → Bool
  | .null => true
  | _ => false

/-- Is this JSON value the given string?  (Python `v == "s"`.) -/
def jIsStr (v : JsonV) (s : String) : Bool :=
  match v with
  | .str t => t = s
  | _ => false

/-- Rendering used by f-string interpolation (`f"{v}"`).  Claims only ever
interpolate strings and numbers; containers get a coarse rendering. -/
def jShow : JsonV → String
  | .null => "None"
  | .bool b => if b then "True" else "False"
  | .num n => toString n
  | .str s => s
  | .arr _ => "[...]"
  | .obj _ => "{...}"

-- ----------------- association-list stores -----------------

/-- `dict.get k` over an association list. -/
def aget {κ α : Type} [DecidableEq κ] (m : List (κ × α)) (k : κ) : Option α :=
  match m with
  | [] => none
  | (k', v) :: t => if k' = k then some v else aget t k

/-- `dict[k] = v`: replace in place if the key is present, else append. -/
def aset {κ α : Type} [DecidableEq κ] (m : List (κ × α)) (k : κ) (v : α) :
    List (κ × α) :=
  match m with
  | [] => [(k, v)]
  | (k', v') :: t => if k' = k then (k', v) :: t else (k', v') :: aset t k v

/-- Update the value at a present key in place (used for panel `PUT`). -/
def amod {κ α : Type} [DecidableEq κ] (m : List (κ × α)) (k : κ) (f : α → α) :
    List (κ × α) :=
  match m with
  | [] => []
  | (k', v') :: t => if k' = k then (k', f v') :: t else (k', v') :: amod t k f

theorem aget_aset_same {κ α : Type} [DecidableEq κ]
    (m : List (κ × α)) (k : κ) (v : α) : aget (aset m k v) k = some v := by
  induction m with
  | nil => simp [aset, aget]
  | cons p t ih =>
      by_cases h : p.1 = k
      · simp [aset, aget, h]
      · simp [aset, aget, h, ih]

theorem aget_amod_same {κ α : Type} [DecidableEq κ]
    (m : List (κ × α)) (k : κ) (f : α → α) :
    aget (amod m k f) k = (aget m k).map f := by
  induction m with
  | nil => simp [amod, aget]
  | cons p t ih =>
      by_cases h : p.1 = k
      · simp [amod, aget, h]
      · simp [amod, aget, h, ih]

-- ----------------- calendar arithmetic -----------------

/-- Days from civil date (proleptic Gregorian) to 1970-01-01, for years
of the common era (all dates in the spec are in 2024/2025). -/
def daysFromCivil (y m d : Nat) : Int :=
  let y' := if m ≤ 2 then y - 1 else y
  let era := y' / 400
  let yoe := y' % 400
  let mp := (m + 9) % 12
  let doy := (153 * mp + 2) / 5 + d - 1
  let doe := yoe * 365 + yoe / 4 - yoe / 100 + doy
  (era * 146097 + doe : Int) - 719468

/-- Epoch seconds of midnight UTC on a civil date. -/
def tsOf (y m d : Nat) : Int := 86400 * daysFromCivil y m d

/-- Civil date from days since the epoch (post-1970 instants). -/
def civilFromDays (z0 : Nat) : Nat × Nat × Nat :=
  let z := z0 + 719468
  let era := z / 146097
  let doe := z % 146097
  let yoe := (doe - doe / 1460 + doe / 36524 - doe / 146096) / 365
  let y := yoe + era * 400
  let doy := doe - (365 * yoe + yoe / 4 - yoe / 100)
  let mp := (5 * doy + 2) / 153
  let d := doy - (153 * mp + 2) / 5 + 1
  let m := if mp < 10 then mp + 3 else mp - 9
  (if m ≤ 2 then y + 1 else y, m, d)

/-- Zero-padded two-digit rendering. -/
def pad2 (n : Nat) : String := if n < 10 then "0" ++ toString n else toString n

/-- `now.strftime("%Y-%m-%d %H:%M UTC")` for post-epoch instants. -/
def formatSetAt (t : Int) : String :=
  let s := t.toNat
  let (y, m, d) := civilFromDays (s / 86400)
  toString y ++ "-" ++ pad2 m ++ "-" ++ pad2 d ++ " " ++
    pad2 (s % 86400 / 3600) ++ ":" ++ pad2 (s % 3600 / 60) ++ " UTC"

-- sanity: the epoch round-trips
example : daysFromCivil 1970 1 1 = 0 := by decide
example : civilFromDays 0 = (1970, 1, 1) := by decide

-- ----------------- expiry computation (compute_expire) -----------------

/-- `bot.py` `compute_expire`: extend a still-running expiry, else start
from `now`; `add_days` is a whole number of days. -/
def compute_expire (now_utc : Int) (current_expire : Option Int)
    (add_days : Int) : Int × String :=
  match current_expire with
  | some e =>
      if e > now_utc then (e + add_days * 86400, "extend")
      else (now_utc + add_days * 86400, "now")
  | none => (now_utc + add_days * 86400, "now")

-- ----------------- payment-request records -----------------

/-- A `payment_requests.json` record.  The source only ever writes these
eight keys; a field is `none` when the key is absent from the dict. -/
structure PaymentRecord : Type where
  payment_id : Option JsonV := none
  tg_id : Option JsonV := none
  username : Option JsonV := none
  plan : Option JsonV := none
  amount_rub : Option JsonV := none
  status : Option JsonV := none
  idempotence_key : Option JsonV := none
  created_at : Option JsonV := none

/-- The empty dict `{}`. -/
def emptyRecord : PaymentRecord := {}

/-- `item.get(key)`: an absent key reads as `None`. -/
def fieldGet (o : Option JsonV) : JsonV := o.getD .null

/-- Python `item.update(updates)`: keys present in `updates` override. -/
def dictUpdate (item upd : PaymentRecord) : PaymentRecord where
  payment_id := upd.payment_id.orElse fun _ => item.payment_id
  tg_id := upd.tg_id.orElse fun _ => item.tg_id
  username := upd.username.orElse fun _ => item.username
  plan := upd.plan.orElse fun _ => item.plan
  amount_rub := upd.amount_rub.orElse fun _ => item.amount_rub
  status := upd.status.orElse fun _ => item.status
  idempotence_key := upd.idempotence_key.orElse fun _ => item.idempotence_key
  created_at := upd.created_at.orElse fun _ => item.created_at

/-- `not item` for a dict: the empty dict is falsy. -/
def recIsEmpty (r : PaymentRecord) : Bool :=
  r.payment_id.isNone && r.tg_id.isNone && r.username.isNone &&
    r.plan.isNone && r.amount_rub.isNone && r.status.isNone &&
    r.idempotence_key.isNone && r.created_at.isNone

/-- The payment-request store (`payment_requests.json`), keyed by the
provider payment id. -/
abbrev PayStore : Type := List (PyKey × PaymentRecord)

/-- `get_payment_request`: the stored dict, or `None`. -/
def get_payment_request (data : PayStore) (payment_id : PyKey) :
    Option PaymentRecord :=
  aget data payment_id

/-- `update_payment_request`: merge `updates` into the stored record,
starting from `{}` when the id is absent. -/
def update_payment_request (data : PayStore) (payment_id : PyKey)
    (updates : PaymentRecord) : PayStore :=
  let item := (aget data payment_id).getD emptyRecord
  aset data payment_id (dictUpdate item updates)

-- ----------------- panel accounts (healthy Marzban) -----------------

/-- The slice of a Marzban account this system reads and writes. -/
structure PanelAccount : Type where
  status : String
  expire : Option Int
  data_limit : Option Int
  note : String
deriving DecidableEq

/-- The panel's user table, keyed by (raw) username. -/
abbrev Panel : Type := List (String × PanelAccount)

def hasUser (panel : Panel) (u : String) : Bool := (aget panel u).isSome

/-- `GET /api/user/{u}` against a healthy panel: 200 when present,
404 otherwise. -/
def api_get_user (panel : Panel) (u : String) : Nat × Option PanelAccount :=
  match aget panel u with
  | some a => (200, some a)
  | none => (404, none)

/-- `PUT /api/user/{u}` against a healthy panel: update the supplied
fields of an existing account (200), 404 when absent. -/
def api_put_user (panel : Panel) (u : String) (f : PanelAccount → PanelAccount) :
    Nat × Panel :=
  if hasUser panel u then (200, amod panel u f) else (404, panel)

/-- `POST /api/user` against a healthy panel: 409 on an existing
username, else 200 and the account is persisted. -/
def api_create_user (panel : Panel) (u : String) (acct : PanelAccount) :
    Nat × Panel :=
  if hasUser panel u then (409, panel) else (200, panel ++ [(u, acct)])

-- ----------------- configuration and plan catalogue -----------------

/-- Default env values: `TRIAL_DAYS=7`, `MONTH_DAYS=30`, `YEAR_DAYS=365`. -/
def TRIAL_DAYS : Int := 7
def MONTH_DAYS : Int := 30
def YEAR_DAYS : Int := 365
def MONTH_PRICE_RUB : Int := 150
/-- `int(round(150 * 12 * (1 - 0.15)))` evaluates to 1530. -/
def YEAR_PRICE_RUB : Int := 1530

structure PlanInfo : Type where
  days : Int
  price : Int
deriving DecidableEq

/-- `PLANS` (trial/selected-plan catalogue). -/
def PLANS : List (String × PlanInfo) :=
  [("trial_7d", ⟨TRIAL_DAYS, 0⟩), ("month_30d", ⟨MONTH_DAYS, MONTH_PRICE_RUB⟩),
   ("year_365d", ⟨YEAR_DAYS, YEAR_PRICE_RUB⟩), ("test_1d", ⟨1, 10⟩)]

structure PaidPlanInfo : Type where
  amount : Int
  days : Int
  selected_plan : String
deriving DecidableEq

/-- `PAID_PLANS` (checkout catalogue, keyed by the short plan id). -/
def PAID_PLANS : List (String × PaidPlanInfo) :=
  [("test1d", ⟨10, 1, "test_1d"⟩), ("month", ⟨MONTH_PRICE_RUB, MONTH_DAYS, "month_30d"⟩),
   ("year", ⟨YEAR_PRICE_RUB, YEAR_DAYS, "year_365d"⟩)]

/-- `PAID_PLANS.get(plan_short or "")`: a string key looks up the
catalogue, other hashable keys miss, unhashable keys raise. -/
def paidPlanGet (v : JsonV) : Option (Option PaidPlanInfo) :=
  match (if pyFalsy v then .str "" else v : JsonV) with
  | .str s => some (aget PAID_PLANS s)
  | .arr _ => none
  | .obj _ => none
  | _ => some none

-- ----------------- usernames -----------------

def canonical_username (tg_id : Int) : String := "tg_" ++ toString tg_id

def legacy_username (tg_id : Int) : String := "user" ++ toString tg_id

-- ----------------- whole-bot state -----------------

/-- The persisted stores plus the panel, threaded through the handlers. -/
structure St : Type where
  panel : Panel
  userMap : List (String × String)
  trialUsed : List (String × Bool)
  planSelected : List (String × String)
  payments : PayStore

def is_trial_used (st : St) (tg_id : Int) : Bool :=
  (aget st.trialUsed (toString tg_id)).getD false

def mark_trial_used (st : St) (tg_id : Int) : St :=
  { st with trialUsed := aset st.trialUsed (toString tg_id) true }

def set_selected_plan (st : St) (tg_id : Int) (plan_id : String) : St :=
  { st with planSelected := aset st.planSelected (toString tg_id) plan_id }

def save_user_mapping (st : St) (tg_id : Int) (username : String) : St :=
  { st with userMap := aset st.userMap (toString tg_id) username }

-- ----------------- small string helpers -----------------

/-- Python `s.strip()`: drop whitespace from both ends (executable,
unlike `String.trim`, which is defined by well-founded recursion). -/
def pyStrip (s : String) : String :=
  String.mk (((s.toList.dropWhile Char.isWhitespace).reverse.dropWhile
    Char.isWhitespace).reverse)

/-- Python `s.strip(chars)`: drop the given characters from both ends. -/
def stripChars (s : String) (cs : List Char) : String :=
  String.mk (((s.toList.dropWhile (cs.contains ·)).reverse.dropWhile
    (cs.contains ·)).reverse)

/-- `f"{base} | {add}".strip(" |") if base else add` (note concatenation
used when applying a plan). -/
def noteJoin (base add : String) : String :=
  if base ≠ "" then stripChars (base ++ " | " ++ add) [' ', '|'] else add

/-- Python `a or b` on strings. -/
def pyOrStr (a b : String) : String := if a = "" then b else a

-- ----------------- ensure_user_exists -----------------

/-- `ensure_user_exists`, abstracted over the HTTP status the panel
returns for the existence lookup (`getCode`) and for the create request
(`createCode`).  Result is `(created, username, error)` as in the source. -/
def ensure_user_exists (testMode : Bool) (tg_id : Int)
    (getCode createCode : Nat) : Bool × Option String × Option String :=
  let username := canonical_username tg_id
  if getCode = 200 then (false, some username, none)
  else if getCode = 401 ∨ getCode = 403 then (false, none, some "auth")
  else if getCode ≠ 404 then (false, none, some ("http_" ++ toString getCode))
  else if ¬testMode then (false, none, some "not_found")
  else if createCode = 200 ∨ createCode = 201 then (true, some username, none)
  else if createCode = 409 then (false, some username, none)
  else if createCode = 422 then (false, none, some "validation")
  else (false, none, some ("http_" ++ toString createCode))

/-- The `note` written on account creation:
`" ".join(["tg_id=<id>"] + (["tg=@<handle>"] if handle else []))`. -/
def ensureNote (tg_id : Int) (tg_username : Option String) : String :=
  let base := "tg_id=" ++ toString tg_id
  match tg_username with
  | some h => if h ≠ "" then base ++ " tg=@" ++ h else base
  | none => base

/-- `ensure_user_exists` run against the healthy panel, with its side
effects: the create request persists the account, and every
200/created/409 outcome writes the id-to-username mapping. -/
def ensure_user_exists_run (testMode : Bool) (st : St) (tg_id : Int)
    (tg_username : Option String) :
    (Bool × Option String × Option String) × St :=
  let username := canonical_username tg_id
  let getCode := (api_get_user st.panel username).1
  if getCode = 200 then
    ((false, some username, none), save_user_mapping st tg_id username)
  else if getCode = 401 ∨ getCode = 403 then ((false, none, some "auth"), st)
  else if getCode ≠ 404 then
    ((false, none, some ("http_" ++ toString getCode)), st)
  else if ¬testMode then ((false, none, some "not_found"), st)
  else
    let acct : PanelAccount :=
      { status := "active", expire := none, data_limit := none,
        note := ensureNote tg_id tg_username }
    let (createCode, panel') := api_create_user st.panel username acct
    let st1 := { st with panel := panel' }
    if createCode = 200 ∨ createCode = 201 then
      ((true, some username, none), save_user_mapping st1 tg_id username)
    else if createCode = 409 then
      ((false, some username, none), save_user_mapping st1 tg_id username)
    else if createCode = 422 then ((false, none, some "validation"), st1)
    else ((false, none, some ("http_" ++ toString createCode)), st1)

-- ----------------- resolve_marzban_username -----------------

/-- One panel call made during resolution: a `GET /api/user/{u}`
existence check or a `GET /api/users?username=u` search. -/
inductive Check : Type where
  | get (u : String) : Check
  | search (u : String) : Check
deriving DecidableEq

/-- The search fallback of `resolve_marzban_username`: try the panel's
user-search endpoint for each non-empty candidate; an empty result list
covers both a non-200 response and an empty page; a falsy first username
is skipped like the source's `if found:`. -/
def searchLoop (searchFn : String → List String) (st : St) (tg_id : Int) :
    List String → Option String × St × List Check
  | [] => (none, st, [])
  | c :: rest =>
    if c = "" then searchLoop searchFn st tg_id rest
    else
      match searchFn c with
      | [] =>
        let (r, st', tr) := searchLoop searchFn st tg_id rest
        (r, st', .search c :: tr)
      | u :: _ =>
        if u = "" then
          let (r, st', tr) := searchLoop searchFn st tg_id rest
          (r, st', .search c :: tr)
        else (some u, save_user_mapping st tg_id u, [.search c])

/-- `resolve_marzban_username`: cached mapping (revalidated), canonical,
handle, legacy, then search; the first hit is written back into the
mapping cache (a revalidated cached mapping is already there).  Also
returns the ordered list of panel calls made. -/
def resolve_marzban_username (searchFn : String → List String) (st : St)
    (tg_id : Int) (tg_username : Option String) :
    Option String × St × List Check :=
  let h := pyStrip (tg_username.getD "")
  let mapped := (aget st.userMap (toString tg_id)).getD ""
  if mapped ≠ "" ∧ (api_get_user st.panel mapped).1 = 200 then
    (some mapped, st, [.get mapped])
  else
    let tr0 : List Check := if mapped ≠ "" then [.get mapped] else []
    let canonical := canonical_username tg_id
    if (api_get_user st.panel canonical).1 = 200 then
      (some canonical, save_user_mapping st tg_id canonical,
        tr0 ++ [.get canonical])
    else if h ≠ "" ∧ (api_get_user st.panel h).1 = 200 then
      (some h, save_user_mapping st tg_id h, tr0 ++ [.get canonical, .get h])
    else
      let tr1 := tr0 ++ [.get canonical] ++ (if h ≠ "" then [.get h] else [])
      let legacy := legacy_username tg_id
      if (api_get_user st.panel legacy).1 = 200 then
        (some legacy, save_user_mapping st tg_id legacy, tr1 ++ [.get legacy])
      else
        let (r, st', tr2) := searchLoop searchFn st tg_id [canonical, legacy, h]
        (r, st', tr1 ++ [.get legacy] ++ tr2)

-- ----------------- plan_apply (trial / plan selection handler) -----------------

/-- The screens `plan_apply` can end on, one per `show_screen` call. -/
inductive PlanOutcome : Type where
  | unknownPlan : PlanOutcome
  | trialUsedRejected : PlanOutcome
  | paymentScreen : PlanOutcome
  | paymentSoon : PlanOutcome
  | errAuth : PlanOutcome
  | errNotFound : PlanOutcome
  | errValidation : PlanOutcome
  | errHttp : PlanOutcome
  | accountMissing : PlanOutcome
  | fetchFailed : PlanOutcome
  | applyFailed : PlanOutcome
  | applied : PlanOutcome
deriving DecidableEq

/-- The error screens the resolve-else-provision prelude can end on. -/
inductive ResolveErr : Type where
  | errAuth : ResolveErr
  | errNotFound : ResolveErr
  | errValidation : ResolveErr
  | errHttp : ResolveErr
  | accountMissing : ResolveErr
deriving DecidableEq

def ResolveErr.toOutcome : ResolveErr → PlanOutcome
  | .errAuth => .errAuth
  | .errNotFound => .errNotFound
  | .errValidation => .errValidation
  | .errHttp => .errHttp
  | .accountMissing => .accountMissing

/-- The resolve-else-provision prelude of `plan_apply` (and `pay_choose`):
resolve the username, fall back to `ensure_user_exists`, and map its
typed errors to screens. -/
def plan_resolve_account (testMode : Bool) (searchFn : String → List String)
    (st : St) (uid : Int) (handle : Option String) :
    Except (St × ResolveErr) (St × String) :=
  let (res, st1, _) := resolve_marzban_username searchFn st uid handle
  match res with
  | some u => .ok (st1, u)
  | none =>
    let ((_, resolved, err), st2) := ensure_user_exists_run testMode st1 uid handle
    if err = some "auth" then .error (st2, .errAuth)
    else if err = some "not_found" then .error (st2, .errNotFound)
    else if err = some "validation" then .error (st2, .errValidation)
    else if (match err with
             | some e => "http_".isPrefixOf e
             | none => false) then .error (st2, .errHttp)
    else match resolved with
      | none => .error (st2, .accountMissing)
      | some u => .ok (st2, u)

/-- The `plan:` callback handler (`plan_apply`), for the configured flags
`PLANS_UNLIMITED_ENABLED` and `TEST_MODE_ENABLED`.  Note that the
"trial already used" rejection is guarded by `not PLANS_UNLIMITED_ENABLED`,
and that the applied payload is always `{note, expire: None, data_limit:
None}` (the expiry-based activation below it is dead code behind
`if False:`). -/
def plan_apply (plansUnlimited testMode : Bool)
    (searchFn : String → List String) (now : Int) (st : St) (uid : Int)
    (handle : Option String) (plan_id : String) : St × PlanOutcome :=
  match aget PLANS plan_id with
  | none => (st, .unknownPlan)
  | some plan =>
    if ¬plansUnlimited ∧ plan_id = "trial_7d" ∧ is_trial_used st uid then
      (st, .trialUsedRejected)
    else if plansUnlimited ∧ (plan_id = "month_30d" ∨ plan_id = "year_365d") then
      (st, .paymentScreen)
    else if plan_id ≠ "trial_7d" ∧ ¬testMode then (st, .paymentSoon)
    else
      match plan_resolve_account testMode searchFn st uid handle with
      | .error (st1, e) => (st1, e.toOutcome)
      | .ok (st1, resolved) =>
        match api_get_user st1.panel resolved with
        | (code, acctOpt) =>
          if code ≠ 200 then (st1, .fetchFailed)
          else
            match acctOpt with
            | none => (st1, .fetchFailed) -- unreachable on a healthy panel
            | some acct =>
              let note_base := pyStrip (pyOrStr acct.note "")
              let note_add := "plan=" ++ plan_id ++ " price=" ++
                toString plan.price ++ " test_mode=1 set_at=" ++ formatSetAt now
              let note := noteJoin note_base note_add
              let (pcode, panel') := api_put_user st1.panel resolved
                (fun a => { a with note := note, expire := none, data_limit := none })
              if pcode = 200 ∨ pcode = 204 then
                let st2 := { st1 with panel := panel' }
                let st3 := if plan_id = "trial_7d" then mark_trial_used st2 uid
                           else st2
                (set_selected_plan st3 uid plan_id, .applied)
              else (st1, .applyFailed)

-- ----------------- activate_paid_plan -----------------

/-- `f"{payment_id}"` for a dict key. -/
def keyShow : PyKey → String
  | .null => "None"
  | .bool b => if b then "True" else "False"
  | .num n => toString n
  | .str s => s

/-- Python `int(v)` for the values reachable here; `none` models the
raised `TypeError`/`ValueError`. -/
def pyToInt : JsonV → Option Int
  | .num n => some n
  | .bool b => some (if b then 1 else 0)
  | .str s => (pyStrip s).toInt?
  | _ => none

/-- `activate_paid_plan(payment_id, status, source)`.  `Except.error ()`
models an exception escaping the handler (unhashable plan key,
`int(tg_id)` failure, non-string username in the URL path); the state at
the moment of the raise is not modelled further, since the process
surfaces it as an unhandled error.  Note the source applies the plan
whenever the incoming `status` is `"succeeded"`, without consulting the
stored record's status. -/
def activate_paid_plan (now : Int) (st : St) (payment_id : PyKey)
    (status : JsonV) : Except Unit St :=
  match get_payment_request st.payments payment_id with
  | none => .ok st
  | some item =>
    if recIsEmpty item then .ok st -- `if not item`
    else
      let plan_short := fieldGet item.plan
      match paidPlanGet plan_short with
      | none => .error ()
      | some planOpt =>
        let tg_id := fieldGet item.tg_id
        let username := fieldGet item.username
        let stStatus : St := { st with
          payments := update_payment_request st.payments payment_id
            { status := some status } }
        if ¬ jIsStr status "succeeded" then .ok stStatus
        else
          match planOpt with
          | none => .ok stStatus
          | some plan =>
            if jIsNull tg_id then .ok stStatus
            else
              let st1 : St := { st with
                payments := update_payment_request st.payments payment_id
                  { status := some (.str "succeeded") } }
              match pyToInt tg_id with
              | none => .error ()
              | some n =>
                let st2 := set_selected_plan st1 n plan.selected_plan
                if pyFalsy username then .ok st2
                else
                  match username with
                  | .str u =>
                    match api_get_user st2.panel u with
                    | (code, acctOpt) =>
                      if code ≠ 200 then .ok st2
                      else
                        match acctOpt with
                        | none => .ok st2 -- unreachable on a healthy panel
                        | some acct =>
                          let new_expire :=
                            (compute_expire now acct.expire plan.days).1
                          let note_base := pyStrip (pyOrStr acct.note "")
                          let note_add := "plan=" ++ jShow plan_short ++
                            " payment_id=" ++ keyShow payment_id
                          let note := noteJoin note_base note_add
                          let (_, panel') := api_put_user st2.panel u
                            (fun a => { a with expire := some new_expire,
                                               status := "active", note := note })
                          .ok { st2 with panel := panel' }
                  | _ => .error ()

-- ----------------- yookassa_webhook -----------------

/-- The `POST /yookassa/webhook` handler.  `cfgSecret` is the module
constant `YOOKASSA_WEBHOOK_SECRET` (already `.strip()`ed at load);
`hdrSecret`/`qrySecret` are the raw header and query values (absent =
`none`); `body` is the parsed request body (`none` = JSON parse failure).
`Except.error ()` models an exception escaping the handler (aiohttp then
answers 500, not a handler-chosen status). -/
def yookassa_webhook (cfgSecret : String) (hdrSecret qrySecret : Option String)
    (body : Option JsonV) (now : Int) (st : St) : Except Unit (Nat × St) :=
  let secret := pyStrip (pyOrStr (hdrSecret.getD "") (qrySecret.getD ""))
  if cfgSecret = "" ∨ secret ≠ cfgSecret then .ok (401, st)
  else
    match body with
    | none => .ok (400, st)
    | some (.obj fields) =>
      let objRaw := (objGet fields "object").getD .null
      let objE : Except Unit JsonObj :=
        if pyFalsy objRaw then .ok .nil
        else
          match objRaw with
          | .obj o => .ok o
          | _ => .error ()
      match objE with
      | .error _ => .error ()
      | .ok o =>
        let pid := (objGet o "id").getD .null
        let status := (objGet o "status").getD .null
        if pyFalsy pid ∨ pyFalsy status then .ok (400, st)
        else
          match jsonToKey pid with
          | none => .error ()
          | some k =>
            if jIsStr status "succeeded" then
              (activate_paid_plan now st k status).map (fun st' => (200, st'))
            else
              .ok (200, { st with
                payments := update_payment_request st.payments k
                  { status := some status } })
    | some _ => .error () -- `payload.get` on a non-dict raises

-- ----------------- panel client 401 handling -----------------

/-- Observable outcome of one `MarzbanClient.request` call: the result
(`error` = the `RuntimeError("Marzban unauthorized")` raise), the number
of HTTP attempts of the original request, and the number of re-logins
performed after a 401 (the lazy first login is not a re-login). -/
structure ReqTrace : Type where
  result : Except Unit Nat
  attempts : Nat
  relogins : Nat

/-- The recursive call with `retry_on_401=False`: a 401 is terminal. -/
def client_request_noRetry (resp : Nat → Nat) (i : Nat) : ReqTrace :=
  if resp i = 401 then ⟨.error (), 1, 0⟩ else ⟨.ok (resp i), 1, 0⟩

/-- `MarzbanClient.request` with `retry_on_401=True` (the default):
`resp n` is the status the panel returns to the n-th HTTP attempt of
this request. -/
def client_request (resp : Nat → Nat) : ReqTrace :=
  if resp 0 = 401 then
    let r := client_request_noRetry resp 1
    ⟨r.result, r.attempts + 1, r.relogins + 1⟩
  else ⟨.ok (resp 0), 1, 0⟩

-- ----------------- allow-list / pending-list operations -----------------

def add_allowed (allowed : List Int) (user_id : Int) : List Int :=
  if user_id ∈ allowed then allowed else allowed ++ [user_id]

def add_pending (pending : List Int) (user_id : Int) : List Int :=
  if user_id ∈ pending then pending else pending ++ [user_id]

/-- `pending.remove(user_id)` guarded by `if user_id in pending`. -/
def remove_pending (pending : List Int) (user_id : Int) : List Int :=
  if user_id ∈ pending then pending.erase user_id else pending

/-- One persisted-list mutation. -/
inductive ListOp : Type where
  | addAllowed (uid : Int) : ListOp
  | addPending (uid : Int) : ListOp
  | removePending (uid : Int) : ListOp

def applyListOp : List Int × List Int → ListOp → List Int × List Int
  | (a, p), .addAllowed uid => (add_allowed a uid, p)
  | (a, p), .addPending uid => (a, add_pending p uid)
  | (a, p), .removePending uid => (a, remove_pending p uid)

def applyListOps (s : List Int × List Int) (ops : List ListOp) :
    List Int × List Int :=
  ops.foldl applyListOp s

-- ===================== claims =====================

/-- C4: Expiry extend-vs-reset: a non-null, still-running expiry `E`
(`now < E`) is extended to `E + D days`; a null or past expiry restarts
from `now + D days`.  In particular E = 2025-01-10, now = 2025-01-05,
D = 30 gives 2025-02-09, and E = 2024-12-01, now = 2025-01-05, D = 30
gives 2025-02-04. -/
theorem c4_expiry_extend_vs_reset :
    (∀ now e d : Int, now < e →
      compute_expire now (some e) d = (e + d * 86400, "extend")) ∧
    (∀ now e d : Int, e ≤ now →
      compute_expire now (some e) d = (now + d * 86400, "now")) ∧
    (∀ now d : Int, compute_expire now none d = (now + d * 86400, "now")) ∧
    compute_expire (tsOf 2025 1 5) (some (tsOf 2025 1 10)) 30 =
      (tsOf 2025 2 9, "extend") ∧
    compute_expire (tsOf 2025 1 5) (some (tsOf 2024 12 1)) 30 =
      (tsOf 2025 2 4, "now") := by
  refine ⟨?_, ?_, ?_, by decide, by decide⟩
  · intro now e d h
    simp [compute_expire, h]
  · intro now e d h
    simp [compute_expire, not_lt.mpr h]
  · intro now d
    rfl

/-- C4 witness: concrete instantiation of the hypothesised conjuncts. -/
theorem c4_expiry_extend_vs_reset_witness :
    compute_expire 0 (some 86400) 30 = (86400 + 30 * 86400, "extend") ∧
    compute_expire 86400 (some 0) 30 = (86400 + 30 * 86400, "now") :=
  ⟨c4_expiry_extend_vs_reset.1 0 86400 30 (by decide),
   c4_expiry_extend_vs_reset.2.1 86400 0 30 (by decide)⟩

/-- C7: Panel client 401 handling: a first 401 triggers exactly one
re-login and exactly one retry; a second 401 terminates the request as
an Unauthorized failure with no further retry. -/
theorem c7_client_single_401_retry (resp : Nat → Nat) (h : resp 0 = 401) :
    (client_request resp).attempts = 2 ∧
    (client_request resp).relogins = 1 ∧
    (resp 1 = 401 → (client_request resp).result = .error ()) ∧
    (resp 1 ≠ 401 → (client_request resp).result = .ok (resp 1)) := by
  refine ⟨by
      by_cases h1 : resp 1 = 401 <;>
        simp [client_request, client_request_noRetry, h, h1], by
      by_cases h1 : resp 1 = 401 <;>
        simp [client_request, client_request_noRetry, h, h1], ?_, ?_⟩
  · intro h1
    simp [client_request, client_request_noRetry, h, h1]
  · intro h1
    simp [client_request, client_request_noRetry, h, h1]

/-- C7 witness: a request answered 401 then 401, and one answered 401
then 200. -/
theorem c7_client_single_401_retry_witness :
    (client_request fun _ => 401).result = .error () ∧
    (client_request fun _ => 401).attempts = 2 ∧
    (client_request fun n => if n = 0 then 401 else 200).result = .ok 200 := by
  refine ⟨(c7_client_single_401_retry (fun _ => 401) rfl).2.2.1 rfl,
    (c7_client_single_401_retry (fun _ => 401) rfl).1, ?_⟩
  have h := (c7_client_single_401_retry (fun n => if n = 0 then 401 else 200)
    rfl).2.2.2 (by decide)
  simpa using h

/-- C3: `ensure_user_exists` error mapping: auth failures on the lookup
give `auth`; other non-200, non-404 lookup statuses give `http_<code>`;
404 with creation disabled gives `not_found`; a 409 on create is success
with `created=false` and the canonical username; a 422 on create gives
`validation`. -/
theorem c3_ensure_error_mapping (testMode : Bool) (tg : Int) (g c : Nat) :
    ((g = 401 ∨ g = 403) →
      ensure_user_exists testMode tg g c = (false, none, some "auth")) ∧
    (g ≠ 200 → g ≠ 404 → g ≠ 401 → g ≠ 403 →
      ensure_user_exists testMode tg g c =
        (false, none, some ("http_" ++ toString g))) ∧
    (ensure_user_exists false tg 404 c = (false, none, some "not_found")) ∧
    (ensure_user_exists true tg 404 409 =
      (false, some (canonical_username tg), none)) ∧
    (ensure_user_exists true tg 404 422 = (false, none, some "validation")) := by
  refine ⟨?_, ?_, by simp [ensure_user_exists], by simp [ensure_user_exists],
    by simp [ensure_user_exists]⟩
  · intro h
    rcases h with h | h <;> simp [ensure_user_exists, h]
  · intro h200 h404 h401 h403
    simp [ensure_user_exists, h200, h404, h401, h403]

/-- C3 witness: concrete statuses exercising every conjunct. -/
theorem c3_ensure_error_mapping_witness :
    ensure_user_exists true 7 401 0 = (false, none, some "auth") ∧
    ensure_user_exists true 7 500 0 = (false, none, some "http_500") ∧
    ensure_user_exists false 7 404 0 = (false, none, some "not_found") ∧
    ensure_user_exists true 7 404 409 = (false, some "tg_7", none) ∧
    ensure_user_exists true 7 404 422 = (false, none, some "validation") :=
  ⟨(c3_ensure_error_mapping true 7 401 0).1 (Or.inl rfl),
   by
    have h := (c3_ensure_error_mapping true 7 500 0).2.1
      (by decide) (by decide) (by decide) (by decide)
    simpa using h,
   (c3_ensure_error_mapping false 7 404 0).2.2.1,
   (c3_ensure_error_mapping true 7 404 409).2.2.2.1,
   (c3_ensure_error_mapping true 7 404 422).2.2.2.2⟩

-- C10 helper: appending an absent element preserves duplicate-freedom.
theorem nodup_appendIfAbsent (l : List Int) (uid : Int) (h : l.Nodup) :
    (if uid ∈ l then l else l ++ [uid]).Nodup := by
  by_cases hm : uid ∈ l
  · simpa [hm]
  · simp [hm, List.nodup_append, h]

/-- C10: the allow-list and pending-list stay duplicate-free under every
sequence of `add_allowed` / `add_pending` / `remove_pending`. -/
theorem c10_lists_nodup (ops : List ListOp) (a p : List Int)
    (ha : a.Nodup) (hp : p.Nodup) :
    (applyListOps (a, p) ops).1.Nodup ∧ (applyListOps (a, p) ops).2.Nodup := by
  induction ops generalizing a p with
  | nil => exact ⟨ha, hp⟩
  | cons op rest ih =>
    cases op with
    | addAllowed uid =>
        exact ih (add_allowed a uid) p (nodup_appendIfAbsent a uid ha) hp
    | addPending uid =>
        exact ih a (add_pending p uid) ha (nodup_appendIfAbsent p uid hp)
    | removePending uid =>
        refine ih a (remove_pending p uid) ha ?_
        unfold remove_pending
        by_cases hm : uid ∈ p
        · simpa [hm] using hp.erase uid
        · simpa [hm] using hp

/-- C10 witness: a concrete operation sequence starting from
duplicate-free lists. -/
theorem c10_lists_nodup_witness :
    (applyListOps ([1, 2], [3])
      [.addAllowed 1, .addAllowed 4, .addPending 3, .addPending 5,
       .removePending 3]).1.Nodup ∧
    (applyListOps ([1, 2], [3])
      [.addAllowed 1, .addAllowed 4, .addPending 3, .addPending 5,
       .removePending 3]).2.Nodup :=
  c10_lists_nodup _ [1, 2] [3] (by decide) (by decide)

-- helper: a key absent from the front of an association list is looked
-- up in the appended tail.
theorem aget_append_of_absent {κ α : Type} [DecidableEq κ]
    (l m : List (κ × α)) (k : κ) (h : aget l k = none) :
    aget (l ++ m) k = aget m k := by
  induction l with
  | nil => rfl
  | cons p t ih =>
      by_cases hk : p.1 = k
      · simp [aget, hk] at h
      · simp [aget, hk] at h ⊢
        exact ih h

/-- C6: `ensure_user_exists` idempotence against a panel that persists
the first call's creation: the first call returns `created=true` with the
canonical username, the second `created=false` with the same username. -/
theorem c6_ensure_idempotent (st : St) (tg : Int) (h1 h2 : Option String)
    (habs : aget st.panel (canonical_username tg) = none) :
    (ensure_user_exists_run true st tg h1).1 =
      (true, some (canonical_username tg), none) ∧
    (ensure_user_exists_run true
      (ensure_user_exists_run true st tg h1).2 tg h2).1 =
      (false, some (canonical_username tg), none) := by
  have hsecond :
      aget (st.panel ++ [(canonical_username tg,
        ({ status := "active", expire := none, data_limit := none,
           note := ensureNote tg h1 } : PanelAccount))])
        (canonical_username tg) =
      some { status := "active", expire := none, data_limit := none,
             note := ensureNote tg h1 } := by
    rw [aget_append_of_absent _ _ _ habs]
    simp [aget]
  constructor
  · simp [ensure_user_exists_run, api_get_user, api_create_user, hasUser, habs]
  · simp [ensure_user_exists_run, api_get_user, api_create_user, hasUser,
      habs, save_user_mapping, hsecond]

/-- C6 witness: a fresh panel and Telegram id 5. -/
theorem c6_ensure_idempotent_witness :
    (ensure_user_exists_run true ⟨[], [], [], [], []⟩ 5 none).1 =
      (true, some "tg_5", none) ∧
    (ensure_user_exists_run true
      (ensure_user_exists_run true ⟨[], [], [], [], []⟩ 5 none).2 5 none).1 =
      (false, some "tg_5", none) :=
  c6_ensure_idempotent ⟨[], [], [], [], []⟩ 5 none none rfl

/-- C5: Resolver fallback order: with no (usable) cached mapping, a
canonical account that does not exist, a handle that does not exist, and
a legacy account that does, resolution returns the legacy username and
writes it to the mapping cache; the existence checks are issued in the
order canonical, handle, legacy, and stop at the first hit. -/
theorem c5_resolver_fallback (searchFn : String → List String) (st : St)
    (tg : Int) (handle : Option String)
    (hmap : aget st.userMap (toString tg) = none)
    (hcanon : aget st.panel (canonical_username tg) = none)
    (hhandle : aget st.panel (pyStrip (handle.getD "")) = none)
    (hleg : hasUser st.panel (legacy_username tg) = true) :
    resolve_marzban_username searchFn st tg handle =
      (some (legacy_username tg), save_user_mapping st tg (legacy_username tg),
        [Check.get (canonical_username tg)] ++
          (if pyStrip (handle.getD "") = "" then []
           else [Check.get (pyStrip (handle.getD ""))]) ++
          [Check.get (legacy_username tg)]) := by
  obtain ⟨a, ha⟩ : ∃ a, aget st.panel (legacy_username tg) = some a := by
    cases hx : aget st.panel (legacy_username tg) with
    | none => rw [hasUser, hx] at hleg; simp at hleg
    | some a => exact ⟨a, rfl⟩
  by_cases hh : pyStrip (handle.getD "") = "" <;>
    simp [resolve_marzban_username, api_get_user, hmap, hcanon, hhandle, ha, hh]

/-- C5 witness: id 9 with no cache entry, a supplied handle, only the
legacy account `user9` on the panel. -/
theorem c5_resolver_fallback_witness :
    resolve_marzban_username (fun _ => [])
      ⟨[("user9", ⟨"active", none, none, ""⟩)], [], [], [], []⟩ 9
      (some "alice") =
      (some "user9",
        save_user_mapping ⟨[("user9", ⟨"active", none, none, ""⟩)], [], [], [], []⟩
          9 "user9",
        [Check.get "tg_9", Check.get "alice", Check.get "user9"]) := by
  have h := c5_resolver_fallback (fun _ => [])
    ⟨[("user9", ⟨"active", none, none, ""⟩)], [], [], [], []⟩ 9 (some "alice")
    rfl rfl rfl rfl
  simpa using h

/-- A deployment with empty stores and an empty panel. -/
def emptySt : St := ⟨[], [], [], [], []⟩

/-- C9: `update_payment_request` on an absent payment id creates a record
that is exactly the supplied updates, so an authenticated webhook carrying
a non-`succeeded` status for an unknown id persists an orphan record
holding only that status. -/
theorem c9_orphan_payment_record (store : PayStore) (pid : PyKey)
    (upd : PaymentRecord) (h : aget store pid = none)
    (cfg : String) (hc : cfg ≠ "") (hcs : pyStrip cfg = cfg)
    (st : St) (idS sS : String) (now : Int)
    (hid : idS ≠ "") (hs0 : sS ≠ "") (hs : sS ≠ "succeeded") :
    (aget (update_payment_request store pid upd) pid =
        some (dictUpdate emptyRecord upd) ∧
      dictUpdate emptyRecord upd = upd) ∧
    (yookassa_webhook cfg (some cfg) none
        (some (.obj (.cons "object"
          (.obj (.cons "id" (.str idS) (.cons "status" (.str sS) .nil)))
          .nil)))
        now st =
      .ok (200, { st with payments := (update_payment_request st.payments
          (.str idS) { status := some (.str sS) }) }) ∧
      (aget st.payments (.str idS) = none →
        aget (update_payment_request st.payments (.str idS)
            { status := some (.str sS) }) (.str idS) =
          some { status := some (.str sS) })) := by
  have horelse : ∀ o : Option JsonV, (o.orElse fun _ => none) = o := by
    intro o
    cases o <;> rfl
  have hupd : dictUpdate emptyRecord upd = upd := by
    cases upd
    simp [dictUpdate, emptyRecord, horelse]
  refine ⟨⟨?_, hupd⟩, ?_, ?_⟩
  · simp [update_payment_request, h, aget_aset_same]
  · simp [yookassa_webhook, pyOrStr, hc, hcs, objGet, pyFalsy, hid, hs0,
      jsonToKey, jIsStr, hs]
  · intro habs
    have : dictUpdate emptyRecord
        ({ status := some (.str sS) } : PaymentRecord) =
        { status := some (.str sS) } := rfl
    simp [update_payment_request, habs, aget_aset_same, this]

/-- C9 witness: empty store, id `p1`, status `pending`. -/
theorem c9_orphan_payment_record_witness :
    aget (update_payment_request [] (.str "q")
        { status := some (.str "x") }) (.str "q") =
      some { status := some (.str "x") } ∧
    yookassa_webhook "s" (some "s") none
        (some (.obj (.cons "object"
          (.obj (.cons "id" (.str "p1") (.cons "status" (.str "pending") .nil)))
          .nil)))
        0 emptySt =
      .ok (200, { emptySt with payments := (update_payment_request
          emptySt.payments (.str "p1") { status := some (.str "pending") }) }) := by
  have h := c9_orphan_payment_record [] (.str "q") { status := some (.str "x") }
    rfl "s" (by decide) (by decide) emptySt "p1" "pending" 0
    (by decide) (by decide) (by decide)
  exact ⟨by rw [h.1.1, h.1.2], h.2.1⟩

-- C2 helper states: a panel account for id 1 with cached mapping, once
-- with the trial flag set and once without.
def trialAcct : PanelAccount := ⟨"active", none, none, ""⟩

def noSearch : String → List String := fun _ => []

def stTrialUsed : St := ⟨[("tg_1", trialAcct)], [("1", "tg_1")], [("1", true)], [], []⟩

def stTrialFresh : St := ⟨[("tg_1", trialAcct)], [("1", "tg_1")], [], [], []⟩

/-- C2 counterexample: under the default configuration
(`PLANS_UNLIMITED_ENABLED`, i.e. `plansUnlimited = true`), a second
`trial_7d` invocation for an id whose trial flag is already set is NOT
rejected — the handler proceeds and re-applies the trial. -/
theorem c2_counterexample_trial_gate_bypassed :
    (plan_apply true true noSearch 0 stTrialUsed 1 none "trial_7d").2 =
      PlanOutcome.applied ∧
    PlanOutcome.applied ≠ PlanOutcome.trialUsedRejected :=
  ⟨rfl, by decide⟩

/-- C2 (amended): a trial application that succeeds marks the trial flag;
and when `PLANS_UNLIMITED_ENABLED` is off, a trial invocation for an id
whose flag is set is rejected with the "trial already used" screen and
leaves the whole state — in particular the panel expiry — unchanged. -/
theorem c2_trial_gate_when_limited (tm : Bool) (searchFn : String → List String)
    (now : Int) (st st' : St) (uid : Int) (handle : Option String) :
    (∀ pu, plan_apply pu tm searchFn now st uid handle "trial_7d" =
        (st', .applied) → is_trial_used st' uid = true) ∧
    (is_trial_used st uid = true →
      plan_apply false tm searchFn now st uid handle "trial_7d" =
        (st, .trialUsedRejected)) := by
  constructor
  · intro pu h
    simp only [plan_apply, PLANS, aget] at h
    simp at h
    split at h
    · simp at h
    · split at h
      · rename_i st1 e heq
        obtain ⟨-, h2⟩ := Prod.mk.injEq .. ▸ h
        cases e <;> simp [ResolveErr.toOutcome] at h2
      · rename_i st1 resolved heq
        repeat'
          first
          | exact PlanOutcome.noConfusion (congrArg Prod.snd h)
          | split at h
        obtain ⟨h1, -⟩ := Prod.mk.injEq .. ▸ h
        subst h1
        simp [is_trial_used, set_selected_plan, mark_trial_used,
          aget_aset_same]
  · intro h
    simp [plan_apply, PLANS, aget, h]

/-- C2 witness: with `plansUnlimited = false`, a first trial application
for id 1 marks the flag, and the invocation on the flag-set state is
rejected unchanged. -/
theorem c2_trial_gate_when_limited_witness :
    is_trial_used
      (plan_apply false true noSearch 0 stTrialFresh 1 none "trial_7d").1 1 =
      true ∧
    plan_apply false true noSearch 0 stTrialUsed 1 none "trial_7d" =
      (stTrialUsed, .trialUsedRejected) :=
  ⟨(c2_trial_gate_when_limited true noSearch 0 stTrialFresh
      (plan_apply false true noSearch 0 stTrialFresh 1 none "trial_7d").1
      1 none).1 false rfl,
   (c2_trial_gate_when_limited true noSearch 0 stTrialUsed stTrialUsed
      1 none).2 rfl⟩

-- C1: a payment request whose stored status is already `succeeded`
-- (the state after a first successful confirmation), and the panel
-- account it belongs to.
def c1_rec : PaymentRecord :=
  { payment_id := some (.str "p1"), tg_id := some (.num 1),
    username := some (.str "tg_1"), plan := some (.str "month"),
    amount_rub := some (.num 150), status := some (.str "succeeded"),
    created_at := some (.str "2025-01-01T00:00:00Z") }

def c1_acct : PanelAccount :=
  { status := "active", expire := some (tsOf 2025 2 1), data_limit := none,
    note := "" }

def c1_st : St := ⟨[("tg_1", c1_acct)], [], [], [], [(.str "p1", c1_rec)]⟩

/-- C1 (code bug): `activate_paid_plan` never consults the stored status,
so re-delivering `succeeded` for a record that is already `succeeded`
re-applies the 30-day month plan: the panel expiry moves from
2025-02-01 to 2025-03-03 instead of staying put. -/
theorem c1_payment_confirmation_not_idempotent :
    (aget c1_st.payments (.str "p1")).map (fun r => r.status) =
      some (some (.str "succeeded")) ∧
    (aget c1_st.panel "tg_1").map (fun a => a.expire) =
      some (some (tsOf 2025 2 1)) ∧
    (activate_paid_plan (tsOf 2025 1 5) c1_st (.str "p1")
        (.str "succeeded")).map
      (fun s => (aget s.panel "tg_1").map (fun a => a.expire)) =
      .ok (some (some (tsOf 2025 3 3))) ∧
    tsOf 2025 3 3 ≠ tsOf 2025 2 1 := by
  refine ⟨rfl, rfl, ?_, by decide⟩
  rfl

/-- C8 counterexample: an authenticated request whose body is valid JSON
but not an object (here `[]`) — so it certainly lacks `object.id` —
escapes the handler as an exception (`payload.get` on a list), instead
of the HTTP 400 the claim requires for every authenticated body lacking
`object.id`. -/
theorem c8_counterexample_nonobject_body :
    yookassa_webhook "s" (some "s") none (some (.arr .nil)) 0 emptySt =
      .error () ∧
    (Except.error () : Except Unit (Nat × St)) ≠ .ok (400, emptySt) :=
  ⟨rfl, fun hc => Except.noConfusion hc⟩

/-- C8 (amended): a missing or mismatching shared secret yields 401; an
authenticated request yields 400 when the body fails JSON parsing or
parses to an object whose (possibly missing or falsy) `object` member
carries no truthy `id` or no truthy `status`; an authenticated request
with a truthy hashable id and a truthy status yields 200 (for
`succeeded`, provided the activation path completes without raising);
a truthy non-object `object` member escapes the handler as an unhandled
exception (as does a valid-JSON non-object body, see the
counterexample). -/
theorem c8_webhook_response_codes (cfg : String) (hdr qry : Option String)
    (body : Option JsonV) (now : Int) (st : St) (hc : cfg ≠ "") :
    (pyStrip (pyOrStr (hdr.getD "") (qry.getD "")) ≠ cfg →
      yookassa_webhook cfg hdr qry body now st = .ok (401, st)) ∧
    (pyStrip (pyOrStr (hdr.getD "") (qry.getD "")) = cfg →
      (body = none → yookassa_webhook cfg hdr qry body now st = .ok (400, st)) ∧
      (∀ fields, body = some (.obj fields) →
        objGet fields "object" = none →
        yookassa_webhook cfg hdr qry body now st = .ok (400, st)) ∧
      (∀ fields o, body = some (.obj fields) →
        objGet fields "object" = some (.obj o) →
        (pyFalsy ((objGet o "id").getD .null) = true ∨
          pyFalsy ((objGet o "status").getD .null) = true) →
        yookassa_webhook cfg hdr qry body now st = .ok (400, st)) ∧
      (∀ fields o k, body = some (.obj fields) →
        objGet fields "object" = some (.obj o) →
        pyFalsy ((objGet o "id").getD .null) = false →
        pyFalsy ((objGet o "status").getD .null) = false →
        jsonToKey ((objGet o "id").getD .null) = some k →
        (jIsStr ((objGet o "status").getD .null) "succeeded" = false →
          yookassa_webhook cfg hdr qry body now st =
            .ok (200, { st with payments := (update_payment_request st.payments
              k { status := some ((objGet o "status").getD .null) }) })) ∧
        (∀ st', jIsStr ((objGet o "status").getD .null) "succeeded" = true →
          activate_paid_plan now st k ((objGet o "status").getD .null) =
            .ok st' →
          yookassa_webhook cfg hdr qry body now st = .ok (200, st'))) ∧
      (∀ fields v, body = some (.obj fields) →
        objGet fields "object" = some v → pyFalsy v = true →
        yookassa_webhook cfg hdr qry body now st = .ok (400, st)) ∧
      (∀ fields v, body = some (.obj fields) →
        objGet fields "object" = some v → pyFalsy v = false →
        (∀ o, v ≠ .obj o) →
        yookassa_webhook cfg hdr qry body now st = .error ())) := by
  constructor
  · intro hne
    simp [yookassa_webhook, hne]
  · intro hsec
    refine ⟨?_, ?_, ?_, ?_, ?_, ?_⟩
    · intro hb
      subst hb
      simp [yookassa_webhook, hsec, hc]
    · intro fields hb hobj
      subst hb
      simp [yookassa_webhook, hsec, hc, hobj, pyFalsy, objGet]
    · intro fields o hb hobj hfal
      subst hb
      rcases hfal with hfal | hfal <;>
        cases o <;>
          simp_all [yookassa_webhook, hsec, hc, hobj, pyFalsy, objGet]
    · intro fields o k hb hobj hid hstat hkey
      subst hb
      constructor
      · intro hns
        cases o with
        | nil => simp [objGet, pyFalsy] at hid
        | cons a b c =>
          have hfo : pyFalsy (JsonV.obj (JsonObj.cons a b c)) = false := rfl
          simp [yookassa_webhook, hsec, hc, hobj, hfo, hid, hstat, hkey, hns]
      · intro st' hs hact
        cases o with
        | nil => simp [objGet, pyFalsy] at hid
        | cons a b c =>
          have hfo : pyFalsy (JsonV.obj (JsonObj.cons a b c)) = false := rfl
          simp [yookassa_webhook, hsec, hc, hobj, hfo, hid, hstat, hkey,
            hs, hact, Except.map]
    · intro fields v hb hobj hfal
      subst hb
      have hnull : pyFalsy ((objGet JsonObj.nil "id").getD JsonV.null) =
          true := rfl
      simp [yookassa_webhook, hsec, hc, hobj, hfal, hnull]
    · intro fields v hb hobj hfal hno
      subst hb
      cases v with
      | obj o => exact absurd rfl (hno o)
      | null => simp [pyFalsy] at hfal
      | bool b => simp [yookassa_webhook, hsec, hc, hobj, hfal]
      | num n => simp [yookassa_webhook, hsec, hc, hobj, hfal]
      | str s => simp [yookassa_webhook, hsec, hc, hobj, hfal]
      | arr l => simp [yookassa_webhook, hsec, hc, hobj, hfal]

/-- C8 witness: a wrong secret gets 401, a missing body 400, a body with
no usable id 400, a pending delivery 200, a null `object` member 400,
and a truthy non-object `object` member an escaping exception. -/
theorem c8_webhook_response_codes_witness :
    yookassa_webhook "s" (some "wrong") none none 0 emptySt =
      .ok (401, emptySt) ∧
    yookassa_webhook "s" (some "s") none none 0 emptySt = .ok (400, emptySt) ∧
    yookassa_webhook "s" (some "s") none (some (.obj .nil)) 0 emptySt =
      .ok (400, emptySt) ∧
    yookassa_webhook "s" (some "s") none
      (some (.obj (.cons "object" (.obj (.cons "id" (.str "p2")
        (.cons "status" (.str "pending") .nil))) .nil))) 0 emptySt =
      .ok (200, { emptySt with payments := (update_payment_request
        emptySt.payments (.str "p2") { status := some (.str "pending") }) }) ∧
    yookassa_webhook "s" (some "s") none
      (some (.obj (.cons "object" .null .nil))) 0 emptySt =
      .ok (400, emptySt) ∧
    yookassa_webhook "s" (some "s") none
      (some (.obj (.cons "object" (.str "x") .nil))) 0 emptySt = .error () :=
  ⟨(c8_webhook_response_codes "s" (some "wrong") none none 0 emptySt
      (by decide)).1 (by decide),
   ((c8_webhook_response_codes "s" (some "s") none none 0 emptySt
      (by decide)).2 (by decide)).1 rfl,
   (((c8_webhook_response_codes "s" (some "s") none (some (.obj .nil)) 0
      emptySt (by decide)).2 (by decide)).2.1 .nil rfl rfl),
   ((((c8_webhook_response_codes "s" (some "s") none
      (some (.obj (.cons "object" (.obj (.cons "id" (.str "p2")
        (.cons "status" (.str "pending") .nil))) .nil))) 0 emptySt
      (by decide)).2 (by decide)).2.2.2.1
      (.cons "object" (.obj (.cons "id" (.str "p2")
        (.cons "status" (.str "pending") .nil))) .nil)
      (.cons "id" (.str "p2") (.cons "status" (.str "pending") .nil))
      (.str "p2") rfl rfl rfl rfl rfl).1 rfl),
   (((c8_webhook_response_codes "s" (some "s") none
      (some (.obj (.cons "object" .null .nil))) 0 emptySt
      (by decide)).2 (by decide)).2.2.2.2.1
      (.cons "object" .null .nil) .null rfl rfl rfl),
   (((c8_webhook_response_codes "s" (some "s") none
      (some (.obj (.cons "object" (.str "x") .nil))) 0 emptySt
      (by decide)).2 (by decide)).2.2.2.2.2
      (.cons "object" (.str "x") .nil) (.str "x") rfl rfl rfl
      (fun o h => JsonV.noConfusion h))⟩
